import Mathlib

/-!
Verification of the device-client binding layer in
`src/examples/cortex_agent_integration.py` (repository ScenSync/cortex_bridge).

The Python file is a ctypes wrapper around the shared library
`libeasytier_device_client.so`.  We embed the wrapper shallowly:

* the C structs `CortexWebClient` and `CortexNetworkInfo` become Lean
  structures whose `c_char_p` fields are `Option String` (a `none` models a
  null pointer; ctypes leaves an unassigned `c_char_p` field null);
* the foreign library is a record `Lib` of the four entry points the wrapper
  binds, given as pure functions from arguments to status codes and results;
* each wrapper method becomes a pure function of the library record and the
  wrapper state `self.instance_name : Option String`, returning its result,
  the new state, and the list of library calls it issued;
* the machine-identity block of `main` is embedded over an explicit
  filesystem `String → Option String` together with the list of file
  operations performed.
-/

/-- The C struct `CortexWebClient` (lines 13-19): three nullable C strings. -/
structure CortexWebClient where
  config_server_url : Option String
  organization_id : Option String
  machine_id : Option String
deriving DecidableEq

/-- The C struct `CortexNetworkInfo` (lines 21-29): five nullable C strings. -/
structure CortexNetworkInfo where
  instance_name : Option String
  network_name : Option String
  virtual_ipv4 : Option String
  hostname : Option String
  version : Option String
deriving DecidableEq

/-- Behaviour of the foreign library `libeasytier_device_client.so` as bound
in `EasyTierDeviceClient.__init__` (lines 41-54).  Status codes are `Int`
(the C `int` return type); `cortex_get_web_client_network_info` returns the
status code together with the out-pointer it fills (a `none` models a null
`CortexNetworkInfo` pointer); `easytier_common_get_error_msg` returns a
nullable C string. -/
structure Lib where
  cortex_start_web_client : CortexWebClient → Int
  cortex_stop_web_client : String → Int
  cortex_get_web_client_network_info : String → Int × Option CortexNetworkInfo
  easytier_common_get_error_msg : Option String

/-- One call issued by the wrapper to the foreign library. -/
inductive LibCall where
  | startCall : CortexWebClient → LibCall
  | stopCall : String → LibCall
  | infoCall : String → LibCall
  | errMsgCall : LibCall
deriving DecidableEq

/-- Python truthiness of `self.instance_name` (used by `if not
self.instance_name`): `None` and the empty string are falsy. -/
def pyTruthyStr : Option String → Bool
  | none => false
  | some s => !s.isEmpty

/-- Characters CPython's `urllib.parse` accepts inside a URL scheme
(`scheme_chars`: ASCII letters, digits, `+`, `-`, `.`). -/
def schemeChar (c : Char) : Bool :=
  c.isAlpha || c.isDigit || c == '+' || c == '-' || c == '.'

/-- A valid scheme is nonempty, starts with an ASCII letter and continues
with scheme characters (CPython `urlsplit`). -/
def validScheme : List Char → Bool
  | [] => false
  | c :: cs => c.isAlpha && cs.all schemeChar

/-- Step 1 of CPython `urlsplit`: if the text before the first `:` is a valid
scheme, drop the scheme and the colon. -/
def removeScheme (l : List Char) : List Char :=
  let pre := l.takeWhile (fun c => c != ':')
  match l.dropWhile (fun c => c != ':') with
  | ':' :: after => if validScheme pre then after else l
  | _ => l

/-- Step 2 of CPython `urlsplit`: if the remainder starts with `//`, the
netloc extends to the first `/`, `?` or `#`; drop it. -/
def dropNetloc : List Char → List Char
  | '/' :: '/' :: rest =>
      rest.dropWhile (fun c => c != '/' && c != '?' && c != '#')
  | l => l

/-- Steps 3-4 of CPython `urlsplit`: the path stops at the first `#`
(fragment) and, within that, at the first `?` (query). -/
def pathPart (l : List Char) : List Char :=
  (l.takeWhile (fun c => c != '#')).takeWhile (fun c => c != '?')

/-- The `path` component of `urllib.parse.urlparse(url)` as used on line 82
(`parsed.path`), for URLs without parameter-splitting subtleties: scheme
removal, netloc removal, then cutting fragment and query. -/
def urlparsePath (url : String) : String :=
  String.mk (pathPart (dropNetloc (removeScheme url.toList)))

/-- Python `s.strip(c)` for a single character `c`: remove every leading and
trailing occurrence of `c` (line 83 uses `.strip('/')`). -/
def pyStripChar (c : Char) (s : String) : String :=
  String.mk (((s.toList.dropWhile (fun a => a == c)).reverse.dropWhile
    (fun a => a == c)).reverse)

/-- Python `s.strip()` with no argument: remove leading and trailing
whitespace (line 143 uses `f.read().strip()`). -/
def pyStrip (s : String) : String :=
  String.mk (((s.toList.dropWhile Char.isWhitespace).reverse.dropWhile
    Char.isWhitespace).reverse)

/-- Result of `EasyTierDeviceClient.start`: the returned bool, the new
`self.instance_name`, the library calls issued, and the diagnostic printed
on failure (`none` when nothing was printed). -/
structure StartResult where
  ok : Bool
  state : Option String
  calls : List LibCall
  reported_error : Option String
deriving DecidableEq

/-- Result of `EasyTierDeviceClient.stop`: the returned bool, the new
`self.instance_name`, and the library calls issued. -/
structure StopResult where
  ok : Bool
  state : Option String
  calls : List LibCall
deriving DecidableEq

/-- The dictionary built by `get_network_info` (lines 123-129): exactly the
five keys `instance_name`, `network_name`, `virtual_ipv4`, `hostname`,
`version`, each a (never-`None`) string. -/
structure NetworkInfoDict where
  instance_name : String
  network_name : String
  virtual_ipv4 : String
  hostname : String
  version : String
deriving DecidableEq

/-- The `CortexWebClient` struct built on lines 72-75: `config_server_url`
and `machine_id` are set from the arguments, `organization_id` is never
assigned and hence stays a null pointer. -/
def startConfig (config_server_url machine_id : String) : CortexWebClient :=
  { config_server_url := some config_server_url
    organization_id := none
    machine_id := some machine_id }

/-- `EasyTierDeviceClient.start` (lines 58-93).  `st` is the current
`self.instance_name`; `machine_idArg` is the optional `machine_id` argument
and `freshUuid` stands for the `str(uuid.uuid4())` generated when it is
`None`.  On status 0 the instance name becomes the URL path stripped of `/`;
otherwise the state is unchanged, the error accessor is queried and its
message is printed only when truthy (`if error_msg:` on line 91, so a null
or empty message prints nothing). -/
def EasyTierDeviceClient.start (lib : Lib) (st : Option String)
    (config_server_url : String) (machine_idArg : Option String)
    (freshUuid : String) : StartResult :=
  let machine_id := machine_idArg.getD freshUuid
  let config := startConfig config_server_url machine_id
  let result := lib.cortex_start_web_client config
  if result = 0 then
    { ok := true
      state := some (pyStripChar '/' (urlparsePath config_server_url))
      calls := [LibCall.startCall config]
      reported_error := none }
  else
    { ok := false
      state := st
      calls := [LibCall.startCall config, LibCall.errMsgCall]
      reported_error :=
        if pyTruthyStr lib.easytier_common_get_error_msg then
          lib.easytier_common_get_error_msg
        else none }

/-- `EasyTierDeviceClient.stop` (lines 95-108): if `self.instance_name` is
falsy, return `False` with no library call; otherwise call
`cortex_stop_web_client` and clear the state exactly when it returns 0. -/
def EasyTierDeviceClient.stop (lib : Lib) (st : Option String) : StopResult :=
  if pyTruthyStr st then
    let name := st.getD ""
    let result := lib.cortex_stop_web_client name
    if result = 0 then
      { ok := true, state := none, calls := [LibCall.stopCall name] }
    else
      { ok := false, state := st, calls := [LibCall.stopCall name] }
  else
    { ok := false, state := st, calls := [] }

/-- `EasyTierDeviceClient.get_network_info` (lines 110-131): `None` when
`self.instance_name` is falsy (no library call), otherwise call the library;
on status 0 with a non-null info pointer build the five-key dictionary,
mapping each null C string field to `""`; in every other case return
`None`. -/
def EasyTierDeviceClient.get_network_info (lib : Lib) (st : Option String) :
    Option NetworkInfoDict × List LibCall :=
  if pyTruthyStr st then
    let name := st.getD ""
    let r := lib.cortex_get_web_client_network_info name
    if r.1 = 0 then
      match r.2 with
      | some info =>
          (some { instance_name := info.instance_name.getD ""
                  network_name := info.network_name.getD ""
                  virtual_ipv4 := info.virtual_ipv4.getD ""
                  hostname := info.hostname.getD ""
                  version := info.version.getD "" },
           [LibCall.infoCall name])
      | none => (none, [LibCall.infoCall name])
    else (none, [LibCall.infoCall name])
  else
    (none, [])

/-- Errors of the Instance Registry `start` operation (spec §4.5, §7). -/
inductive StartError where
  | DuplicateInstanceError
deriving DecidableEq

/-- Errors of the Instance Registry `stop` operation (spec §4.5, §7). -/
inductive StopError where
  | NotFoundError
deriving DecidableEq

/-- Modelled from the spec: the process-wide Instance Registry implemented
inside `libeasytier_device_client` — the code behind
`cortex_start_web_client` and `cortex_stop_web_client` is not under `src/`,
only its ctypes declarations and callers are.  Spec §4.5: a table mapping an
instance name to its running session state, here the list of active instance
names. -/
abbrev Registry := List String

/-- Modelled from the spec (§4.5): `start(instance_name, config)` fails with
`DuplicateInstanceError` if `instance_name` is already active, otherwise
records the instance as active. -/
def Registry.start (r : Registry) (name : String) : Except StartError Registry :=
  if name ∈ r then Except.error StartError.DuplicateInstanceError
  else Except.ok (name :: r)

/-- Modelled from the spec (§4.5): `stop(instance_name)` fails with
`NotFoundError` if the instance is absent, otherwise removes it. -/
def Registry.stop (r : Registry) (name : String) : Except StopError Registry :=
  if name ∈ r then Except.ok (List.erase r name)
  else Except.error StopError.NotFoundError

/-- The constant `MACHINE_ID_FILE` of `main` (line 140). -/
def MACHINE_ID_FILE : String := "/var/lib/cortex_agent/machine_id"

/-- `os.path.dirname(MACHINE_ID_FILE)` as passed to `os.makedirs`
(line 146). -/
def MACHINE_ID_DIR : String := "/var/lib/cortex_agent"

/-- One filesystem operation performed by the machine-identity block of
`main`. -/
inductive FsOp where
  | readFile : String → FsOp
  | makedirs : String → FsOp
  | writeFile : String → String → FsOp
  | renameFile : String → String → FsOp
deriving DecidableEq

/-- The machine-identity block of `main` (lines 140-148), over an explicit
filesystem `fs` mapping a path to its content when the file exists, with
`freshUuid` standing for `str(uuid.uuid4())`.  If `MACHINE_ID_FILE` exists
its stripped content is the machine id; otherwise the fresh UUID is used,
parent directories are created and the UUID is written to the file.  Returns
the machine id and the list of file operations performed. -/
def loadMachineId (fs : String → Option String) (freshUuid : String) :
    String × List FsOp :=
  match fs MACHINE_ID_FILE with
  | some content => (pyStrip content, [FsOp.readFile MACHINE_ID_FILE])
  | none =>
      (freshUuid,
       [FsOp.makedirs MACHINE_ID_DIR, FsOp.writeFile MACHINE_ID_FILE freshUuid])

/-- Effect of one file operation on the filesystem (reads and directory
creation leave file contents unchanged). -/
def applyFsOp (fs : String → Option String) : FsOp → (String → Option String)
  | FsOp.writeFile p c => fun q => if q = p then some c else fs q
  | FsOp.renameFile src dst => fun q =>
      if q = dst then fs src else if q = src then none else fs q
  | _ => fs

/-- Effect of a list of file operations, applied left to right. -/
def applyFsOps (fs : String → Option String) : List FsOp → (String → Option String)
  | [] => fs
  | op :: rest => applyFsOps (applyFsOp fs op) rest

/-- True when the operation is a rename. -/
def FsOp.isRename : FsOp → Bool
  | FsOp.renameFile _ _ => true
  | _ => false

/-- A concrete `CortexNetworkInfo` fixture with a null `hostname` field. -/
def infoFixture : CortexNetworkInfo :=
  { instance_name := some "org-123"
    network_name := some "alpha"
    virtual_ipv4 := some "10.144.144.10"
    hostname := none
    version := some "2.1.0" }

/-- A library fixture whose every entry point succeeds; the info pointer is
filled with `infoFixture`. -/
def libOkAll : Lib :=
  { cortex_start_web_client := fun _ => 0
    cortex_stop_web_client := fun _ => 0
    cortex_get_web_client_network_info := fun _ => (0, some infoFixture)
    easytier_common_get_error_msg := none }

/-- A library fixture whose every entry point fails with status 1 and whose
error accessor yields a diagnostic. -/
def libFailAll : Lib :=
  { cortex_start_web_client := fun _ => 1
    cortex_stop_web_client := fun _ => 1
    cortex_get_web_client_network_info := fun _ => (1, none)
    easytier_common_get_error_msg := some "connection refused" }

/-- A library fixture whose every entry point fails with status 1 and whose
error accessor yields a non-null but empty message. -/
def libFailEmptyMsg : Lib :=
  { cortex_start_web_client := fun _ => 1
    cortex_stop_web_client := fun _ => 1
    cortex_get_web_client_network_info := fun _ => (1, none)
    easytier_common_get_error_msg := some "" }

/-- Claim C5: `stop` on an unknown instance (not started, or already
stopped, so `self.instance_name` is `None`) returns `False`, issues no
library call, and leaves the recorded instance name unchanged. -/
theorem stop_unknown_instance_no_side_effects (lib : Lib) :
    EasyTierDeviceClient.stop lib none
      = { ok := false, state := none, calls := [] } := rfl

/-- Claim C10: every `start` call passes to the library a `CortexWebClient`
struct whose `organization_id` field is a null pointer; only
`config_server_url` and `machine_id` are populated, from the arguments. -/
theorem start_organization_id_never_populated (lib : Lib) (st : Option String)
    (url : String) (machine_idArg : Option String) (freshUuid : String) :
    (EasyTierDeviceClient.start lib st url machine_idArg freshUuid).calls.head?
      = some (LibCall.startCall (startConfig url (machine_idArg.getD freshUuid))) ∧
    (startConfig url (machine_idArg.getD freshUuid)).organization_id = none ∧
    (startConfig url (machine_idArg.getD freshUuid)).config_server_url = some url ∧
    (startConfig url (machine_idArg.getD freshUuid)).machine_id
      = some (machine_idArg.getD freshUuid) := by
  refine ⟨?_, rfl, rfl, rfl⟩
  by_cases h :
      lib.cortex_start_web_client (startConfig url (machine_idArg.getD freshUuid)) = 0 <;>
    simp [EasyTierDeviceClient.start, h]

/-- Claim C2 counterexample: when the accessor yields a non-null but empty
message, the code's `if error_msg:` check (line 91) suppresses the report:
`start` fails yet nothing is reported, refuting "if the accessor yields a
non-null message, that diagnostic is reported" as stated. -/
theorem start_empty_error_msg_not_reported_counterexample :
    libFailEmptyMsg.easytier_common_get_error_msg = some "" ∧
    (EasyTierDeviceClient.start libFailEmptyMsg none "tcp://host:11020/org-123"
        (some "m-1") "u-0").ok = false ∧
    (EasyTierDeviceClient.start libFailEmptyMsg none "tcp://host:11020/org-123"
        (some "m-1") "u-0").reported_error = none := by
  decide

/-- Claim C2 as amended: `start` returns `True` iff `cortex_start_web_client`
returns status 0; when the status is nonzero, `start` returns `False`, the
reported diagnostic is the accessor's message filtered through Python
truthiness, and in particular any non-null, non-empty message is reported
verbatim (a null or empty message reports nothing). -/
theorem start_ok_iff_status_zero_truthy_report (lib : Lib) (st : Option String)
    (url : String) (machine_idArg : Option String) (freshUuid : String) :
    ((EasyTierDeviceClient.start lib st url machine_idArg freshUuid).ok = true ↔
      lib.cortex_start_web_client (startConfig url (machine_idArg.getD freshUuid)) = 0) ∧
    (lib.cortex_start_web_client (startConfig url (machine_idArg.getD freshUuid)) ≠ 0 →
      (EasyTierDeviceClient.start lib st url machine_idArg freshUuid).ok = false ∧
      (EasyTierDeviceClient.start lib st url machine_idArg freshUuid).reported_error
        = (if pyTruthyStr lib.easytier_common_get_error_msg then
            lib.easytier_common_get_error_msg
          else none) ∧
      (∀ m, lib.easytier_common_get_error_msg = some m → m.isEmpty = false →
        (EasyTierDeviceClient.start lib st url machine_idArg freshUuid).reported_error
          = some m)) := by
  by_cases h :
      lib.cortex_start_web_client (startConfig url (machine_idArg.getD freshUuid)) = 0
  · simp [EasyTierDeviceClient.start, h]
  · refine ⟨by simp [EasyTierDeviceClient.start, h], fun _ => ⟨?_, ?_, ?_⟩⟩
    · simp [EasyTierDeviceClient.start, h]
    · simp [EasyTierDeviceClient.start, h]
    · intro m hm hne
      simp [EasyTierDeviceClient.start, h, hm, pyTruthyStr, hne]

/-- Claim C2 amended witness: on the failing library fixture with a
non-empty diagnostic, `start` returns `False` and reports that
diagnostic. -/
theorem start_ok_iff_status_zero_truthy_report_witness :
    (EasyTierDeviceClient.start libFailAll none "tcp://host:11020/org-123"
        (some "m-1") "u-0").ok = false ∧
    (EasyTierDeviceClient.start libFailAll none "tcp://host:11020/org-123"
        (some "m-1") "u-0").reported_error = some "connection refused" := by
  have h := (start_ok_iff_status_zero_truthy_report libFailAll none
      "tcp://host:11020/org-123" (some "m-1") "u-0").2 (by decide)
  exact ⟨h.1, h.2.2 "connection refused" rfl rfl⟩

/-- Claim C6: when `cortex_stop_web_client` returns 0, `stop` returns `True`
and clears `self.instance_name` to `None`; with the state `None`, every
subsequent `get_network_info` returns `None` without a library call and
every subsequent `stop` returns `False`, until another successful
`start`. -/
theorem stop_success_clears_state (lib lib2 lib3 : Lib) (name : String)
    (hname : name.isEmpty = false)
    (h : lib.cortex_stop_web_client name = 0) :
    (EasyTierDeviceClient.stop lib (some name)).ok = true ∧
    (EasyTierDeviceClient.stop lib (some name)).state = none ∧
    EasyTierDeviceClient.get_network_info lib2 none = (none, []) ∧
    (EasyTierDeviceClient.stop lib3 none).ok = false := by
  refine ⟨?_, ?_, rfl, rfl⟩ <;>
    simp [EasyTierDeviceClient.stop, pyTruthyStr, hname, h]

/-- Claim C6 witness: the succeeding library fixture at instance name
`org-123`. -/
theorem stop_success_clears_state_witness :
    (EasyTierDeviceClient.stop libOkAll (some "org-123")).ok = true ∧
    (EasyTierDeviceClient.stop libOkAll (some "org-123")).state = none ∧
    EasyTierDeviceClient.get_network_info libOkAll none = (none, []) ∧
    (EasyTierDeviceClient.stop libFailAll none).ok = false :=
  stop_success_clears_state libOkAll libOkAll libFailAll "org-123" rfl rfl

/-- Claim C1: when `start` succeeds, the recorded instance name is the URL
path component stripped of `/` characters, and (that name being non-empty,
as when the path is the organization id `/org-123`) every subsequent `stop`
and `get_network_info` passes exactly that string to the library. -/
theorem start_records_stripped_path (lib : Lib) (st : Option String)
    (url : String) (machine_idArg : Option String) (freshUuid : String)
    (hok : (EasyTierDeviceClient.start lib st url machine_idArg freshUuid).ok = true)
    (hne : (pyStripChar '/' (urlparsePath url)).isEmpty = false) :
    (EasyTierDeviceClient.start lib st url machine_idArg freshUuid).state
      = some (pyStripChar '/' (urlparsePath url)) ∧
    (EasyTierDeviceClient.stop lib
        (some (pyStripChar '/' (urlparsePath url)))).calls
      = [LibCall.stopCall (pyStripChar '/' (urlparsePath url))] ∧
    (EasyTierDeviceClient.get_network_info lib
        (some (pyStripChar '/' (urlparsePath url)))).2
      = [LibCall.infoCall (pyStripChar '/' (urlparsePath url))] := by
  by_cases h :
      lib.cortex_start_web_client (startConfig url (machine_idArg.getD freshUuid)) = 0
  · refine ⟨by simp [EasyTierDeviceClient.start, h], ?_, ?_⟩
    · simp only [EasyTierDeviceClient.stop, pyTruthyStr, hne, Bool.not_false,
        if_true, Option.getD_some]
      split <;> rfl
    · simp only [EasyTierDeviceClient.get_network_info, pyTruthyStr, hne,
        Bool.not_false, if_true, Option.getD_some]
      split
      · split <;> rfl
      · rfl
  · simp [EasyTierDeviceClient.start, h] at hok

/-- Claim C1 witness: starting against the succeeding fixture with the URL
of the spec scenario records `org-123` and later calls pass `org-123`. -/
theorem start_records_stripped_path_witness :
    (EasyTierDeviceClient.start libOkAll none "tcp://host:11020/org-123"
        (some "m-1") "u-0").state
      = some (pyStripChar '/' (urlparsePath "tcp://host:11020/org-123")) ∧
    (EasyTierDeviceClient.stop libOkAll
        (some (pyStripChar '/' (urlparsePath "tcp://host:11020/org-123")))).calls
      = [LibCall.stopCall (pyStripChar '/' (urlparsePath "tcp://host:11020/org-123"))] ∧
    (EasyTierDeviceClient.get_network_info libOkAll
        (some (pyStripChar '/' (urlparsePath "tcp://host:11020/org-123")))).2
      = [LibCall.infoCall (pyStripChar '/' (urlparsePath "tcp://host:11020/org-123"))] :=
  start_records_stripped_path libOkAll none "tcp://host:11020/org-123"
    (some "m-1") "u-0" rfl (by decide)

/-- Claim C4: `get_network_info` returns `None` whenever there is no active
session: with no started instance it returns `None` without any library
call; with a started instance it returns `None` when the library status is
nonzero or the info pointer is null, and otherwise the five-field snapshot
dictionary. -/
theorem get_network_info_none_or_snapshot (lib : Lib) (st : Option String) :
    (st = none → EasyTierDeviceClient.get_network_info lib st = (none, [])) ∧
    (∀ name, st = some name → name.isEmpty = false →
      ((lib.cortex_get_web_client_network_info name).1 ≠ 0 ∨
          (lib.cortex_get_web_client_network_info name).2 = none →
        (EasyTierDeviceClient.get_network_info lib st).1 = none) ∧
      (∀ info, lib.cortex_get_web_client_network_info name = (0, some info) →
        (EasyTierDeviceClient.get_network_info lib st).1
          = some { instance_name := info.instance_name.getD ""
                   network_name := info.network_name.getD ""
                   virtual_ipv4 := info.virtual_ipv4.getD ""
                   hostname := info.hostname.getD ""
                   version := info.version.getD "" })) := by
  constructor
  · rintro rfl
    rfl
  · rintro name rfl hname
    constructor
    · intro hbad
      rcases hbad with hbad | hbad
      · simp only [EasyTierDeviceClient.get_network_info, pyTruthyStr, hname]
        simp only [Bool.not_false, if_true, Option.getD_some]
        rw [if_neg hbad]
      · simp only [EasyTierDeviceClient.get_network_info, pyTruthyStr, hname]
        simp only [Bool.not_false, if_true, Option.getD_some]
        split
        · rw [hbad]
        · rfl
    · intro info hcall
      simp [EasyTierDeviceClient.get_network_info, pyTruthyStr, hname, hcall]

/-- Claim C4 witness: with no started instance the failing fixture is never
called and `None` is returned. -/
theorem get_network_info_none_or_snapshot_witness :
    EasyTierDeviceClient.get_network_info libFailAll none = (none, []) :=
  (get_network_info_none_or_snapshot libFailAll none).1 rfl

/-- Claim C9: a successful `get_network_info` snapshot is total over its
five fields: each field equals the C string when non-null and `""` when the
C string is a null pointer, so no field of the dictionary is ever `None`. -/
theorem network_info_fields_never_none (lib : Lib) (name : String)
    (info : CortexNetworkInfo)
    (hname : name.isEmpty = false)
    (hcall : lib.cortex_get_web_client_network_info name = (0, some info)) :
    ∃ d : NetworkInfoDict,
      (EasyTierDeviceClient.get_network_info lib (some name)).1 = some d ∧
      d.instance_name = info.instance_name.getD "" ∧
      d.network_name = info.network_name.getD "" ∧
      d.virtual_ipv4 = info.virtual_ipv4.getD "" ∧
      d.hostname = info.hostname.getD "" ∧
      d.version = info.version.getD "" ∧
      (info.instance_name = none → d.instance_name = "") ∧
      (info.network_name = none → d.network_name = "") ∧
      (info.virtual_ipv4 = none → d.virtual_ipv4 = "") ∧
      (info.hostname = none → d.hostname = "") ∧
      (info.version = none → d.version = "") := by
  refine ⟨{ instance_name := info.instance_name.getD ""
            network_name := info.network_name.getD ""
            virtual_ipv4 := info.virtual_ipv4.getD ""
            hostname := info.hostname.getD ""
            version := info.version.getD "" },
    by simp [EasyTierDeviceClient.get_network_info, pyTruthyStr, hname, hcall],
    rfl, rfl, rfl, rfl, rfl, ?_, ?_, ?_, ?_, ?_⟩ <;>
    intro hnull <;> simp [hnull]

/-- Claim C9 witness: the succeeding fixture's info pointer has a null
`hostname`, and the returned snapshot maps it to `""`. -/
theorem network_info_fields_never_none_witness :
    ∃ d : NetworkInfoDict,
      (EasyTierDeviceClient.get_network_info libOkAll (some "org-123")).1 = some d ∧
      d.instance_name = infoFixture.instance_name.getD "" ∧
      d.network_name = infoFixture.network_name.getD "" ∧
      d.virtual_ipv4 = infoFixture.virtual_ipv4.getD "" ∧
      d.hostname = infoFixture.hostname.getD "" ∧
      d.version = infoFixture.version.getD "" ∧
      (infoFixture.instance_name = none → d.instance_name = "") ∧
      (infoFixture.network_name = none → d.network_name = "") ∧
      (infoFixture.virtual_ipv4 = none → d.virtual_ipv4 = "") ∧
      (infoFixture.hostname = none → d.hostname = "") ∧
      (infoFixture.version = none → d.version = "") :=
  network_info_fields_never_none libOkAll "org-123" infoFixture rfl rfl

/-- Claim C3: in the spec-modelled Instance Registry, after `start`
succeeds for a name, a subsequent `start` with the same name fails with
`DuplicateInstanceError`, and once `stop` succeeds for that name, `start`
succeeds again. -/
theorem registry_duplicate_start_until_stop (r r2 : Registry) (name : String)
    (h : Registry.start r name = Except.ok r2) :
    Registry.start r2 name = Except.error StartError.DuplicateInstanceError ∧
    ∀ r3, Registry.stop r2 name = Except.ok r3 →
      Registry.start r3 name = Except.ok (name :: r3) := by
  unfold Registry.start at h
  by_cases hm : name ∈ r
  · simp [hm] at h
  · simp only [hm, if_false, if_neg, Except.ok.injEq] at h
    subst h
    constructor
    · simp [Registry.start]
    · intro r3 h3
      simp only [Registry.stop, List.mem_cons, true_or, if_true,
        List.erase_cons_head, Except.ok.injEq, if_pos, Or.inl rfl] at h3
      subst h3
      simp [Registry.start, hm]

/-- Claim C3 witness: starting `org-123` in the empty registry, a duplicate
start fails and a start after stop succeeds. -/
theorem registry_duplicate_start_until_stop_witness :
    Registry.start ["org-123"] "org-123"
      = Except.error StartError.DuplicateInstanceError ∧
    ∀ r3, Registry.stop ["org-123"] "org-123" = Except.ok r3 →
      Registry.start r3 "org-123" = Except.ok ("org-123" :: r3) :=
  registry_duplicate_start_until_stop [] ["org-123"] "org-123" rfl

/-- Claim C7: the machine-identity file is read (and its content stripped of
surrounding whitespace) when it exists; otherwise the fresh UUID becomes the
machine id, the parent directory is created, the UUID is written to the
file, and afterwards the file holds the UUID, so every later run reads the
same identity whatever fresh UUID it draws. -/
theorem machine_id_persisted_and_reread (fs : String → Option String)
    (freshUuid : String) :
    (∀ content, fs MACHINE_ID_FILE = some content →
      loadMachineId fs freshUuid
        = (pyStrip content, [FsOp.readFile MACHINE_ID_FILE])) ∧
    (fs MACHINE_ID_FILE = none →
      loadMachineId fs freshUuid
        = (freshUuid, [FsOp.makedirs MACHINE_ID_DIR,
                       FsOp.writeFile MACHINE_ID_FILE freshUuid]) ∧
      applyFsOps fs (loadMachineId fs freshUuid).2 MACHINE_ID_FILE
        = some freshUuid ∧
      (pyStrip freshUuid = freshUuid →
        ∀ fresh2, loadMachineId (applyFsOps fs (loadMachineId fs freshUuid).2) fresh2
          = (freshUuid, [FsOp.readFile MACHINE_ID_FILE]))) := by
  constructor
  · intro content hc
    simp [loadMachineId, hc]
  · intro hn
    refine ⟨by simp [loadMachineId, hn], ?_, ?_⟩
    · simp [loadMachineId, hn, applyFsOps, applyFsOp]
    · intro htrim fresh2
      simp [loadMachineId, hn, applyFsOps, applyFsOp, htrim]

/-- Claim C7 witness: on an empty filesystem the fresh UUID is written, and
the next run reads it back. -/
theorem machine_id_persisted_and_reread_witness :
    loadMachineId (fun _ => none) "a1b2-c3d4"
      = ("a1b2-c3d4", [FsOp.makedirs MACHINE_ID_DIR,
                       FsOp.writeFile MACHINE_ID_FILE "a1b2-c3d4"]) ∧
    loadMachineId
        (applyFsOps (fun _ => none) (loadMachineId (fun _ => none) "a1b2-c3d4").2)
        "zz-99"
      = ("a1b2-c3d4", [FsOp.readFile MACHINE_ID_FILE]) := by
  have h := (machine_id_persisted_and_reread (fun _ => none) "a1b2-c3d4").2 rfl
  exact ⟨h.1, h.2.2 (by decide) "zz-99"⟩

/-- Claim C8 counterexample: on an empty filesystem the fresh UUID is not
persisted via a temporary file and rename; the operations performed are a
`makedirs` and a direct write to the identity file, with no rename at
all. -/
theorem machine_id_atomic_write_counterexample :
    (loadMachineId (fun _ => none) "u-1").2
      = [FsOp.makedirs MACHINE_ID_DIR, FsOp.writeFile MACHINE_ID_FILE "u-1"] ∧
    (loadMachineId (fun _ => none) "u-1").2.any FsOp.isRename = false ∧
    FsOp.writeFile MACHINE_ID_FILE "u-1" ∈ (loadMachineId (fun _ => none) "u-1").2 := by
  decide

/-- Claim C8 as amended: when no persisted machine id exists, the fresh UUID
is persisted by creating the parent directory and writing it directly to the
identity file in a single non-atomic write; no temporary file and no rename
are involved. -/
theorem machine_id_written_directly (fs : String → Option String)
    (freshUuid : String) (h : fs MACHINE_ID_FILE = none) :
    (loadMachineId fs freshUuid).2
      = [FsOp.makedirs MACHINE_ID_DIR, FsOp.writeFile MACHINE_ID_FILE freshUuid] ∧
    (loadMachineId fs freshUuid).2.any FsOp.isRename = false := by
  simp [loadMachineId, h, FsOp.isRename]

/-- Claim C8 amended witness: the empty filesystem with UUID `u-2`. -/
theorem machine_id_written_directly_witness :
    (loadMachineId (fun _ => none) "u-2").2
      = [FsOp.makedirs MACHINE_ID_DIR, FsOp.writeFile MACHINE_ID_FILE "u-2"] ∧
    (loadMachineId (fun _ => none) "u-2").2.any FsOp.isRename = false :=
  machine_id_written_directly (fun _ => none) "u-2" rfl
